import Mathlib

/-!
Verification of the three-stage video-editing pipeline
(src/utils.py, src/transcribe.py, src/genai.py, src/video_cut.py, src/prompts.py).

Each Python function that the claims depend on is shallowly embedded as a Lean
definition. Machine floats are modelled as rationals; file-system and
external-engine effects are modelled by explicit parameters (cache state,
engine outcome) and explicit result fields (message, file-existence flags).
-/

/-! ## Hallucination filter — src/utils.py lines 37-44 -/

/-- Model of the whitespace class matched by the regex class backslash-s in
src/utils.py line 41. The pattern is a Unicode string with no ASCII flag, so
the class is full Unicode whitespace: tab through carriage return, the
file/group/record/unit separators, space, next line, no-break space, ogham
space mark, the en-quad through hair-space range, line and paragraph
separators, narrow no-break space, medium mathematical space and ideographic
space. The same set is what str.rstrip strips. -/
def isPySpace (c : Char) : Bool :=
  (0x09 ≤ c.toNat && c.toNat ≤ 0x0d) ||
  (0x1c ≤ c.toNat && c.toNat ≤ 0x1f) ||
  c.toNat = 0x20 ||
  c.toNat = 0x85 ||
  c.toNat = 0xa0 ||
  c.toNat = 0x1680 ||
  (0x2000 ≤ c.toNat && c.toNat ≤ 0x200a) ||
  c.toNat = 0x2028 ||
  c.toNat = 0x2029 ||
  c.toNat = 0x202f ||
  c.toNat = 0x205f ||
  c.toNat = 0x3000

/-- Character class of the garbage pattern in src/utils.py line 41:
the two hallucination glyphs plus whitespace. -/
def isGarbageChar (c : Char) : Bool :=
  c = 'ḍ' || c = 'ὁ' || isPySpace c

/-- Embedding of filter_hallucinations (src/utils.py lines 37-44).
Empty text returns empty; a full match of one-or-more garbage characters
returns empty; anything else is returned unchanged. A Python fullmatch of
a one-or-more character class succeeds exactly on a nonempty string all of
whose characters are in the class; the nonempty condition is subsumed here
because the empty string is already handled by the first branch. -/
def filter_hallucinations (text : String) : String :=
  if text.data = [] then ""
  else if text.data.all isGarbageChar then ""
  else text

/-! ## Segment cutter — src/utils.py lines 193-251 (trim_video_from_segments) -/

/-- A segment of the refined document: the dict entries read at
src/utils.py lines 209-210 via seg.get, which yields None for a missing key. -/
structure Segment where
  start : Option ℚ
  stop : Option ℚ
deriving DecidableEq

/-- A produced subclip: its sub-range and whether a 0.5s cross-fade-in was
applied to it (src/utils.py lines 216-220). -/
structure Clip where
  start : ℚ
  stop : ℚ
  fadeIn : Bool
deriving DecidableEq

/-- A segment survives the drop test of src/utils.py line 212: both bounds
present and duration not below 0.5 seconds. -/
def survives (s : Segment) : Bool :=
  match s.start, s.stop with
  | some a, some b => !(b - a < 0.5)
  | _, _ => false

/-- The clip produced from the segment at original loop index i, or none if
the segment is skipped (src/utils.py lines 208-220). The fade-in flag is
decided by the original enumeration index: `if i > 0` at line 219. -/
def clipOf (i : Nat) (s : Segment) : Option Clip :=
  match s.start, s.stop with
  | some a, some b => if b - a < 0.5 then none else some ⟨a, b, decide (0 < i)⟩
  | _, _ => none

/-- The loop `for i, seg in enumerate(segments)` of src/utils.py line 208,
started at index i. -/
def buildClipsAux (i : Nat) : List Segment → List Clip
  | [] => []
  | s :: rest =>
    match clipOf i s with
    | some c => c :: buildClipsAux (i + 1) rest
    | none => buildClipsAux (i + 1) rest

/-- The clip list built by the loop of trim_video_from_segments. -/
def buildClips (segs : List Segment) : List Clip :=
  buildClipsAux 0 segs

/-- Embedding of trim_video_from_segments (src/utils.py lines 193-251):
returns none (Python False, no output written) on an empty input list
(line 197) or when no clips survive (line 224); otherwise some clip list
that is rendered and written. The rendering/IO itself is external. -/
def trim_video_from_segments (segs : List Segment) : Option (List Clip) :=
  if segs = [] then none
  else
    let clips := buildClips segs
    if clips = [] then none else some clips

/-- Bounds of a surviving segment (both fields are present when it survives). -/
def segBounds (s : Segment) : ℚ × ℚ :=
  (s.start.getD 0, s.stop.getD 0)

/-- Bounds of a produced clip. -/
def clipBounds (c : Clip) : ℚ × ℚ :=
  (c.start, c.stop)

/-- The concrete example sequence from the specification, section 8. -/
def exampleSegs : List Segment :=
  [⟨some 0, some 1⟩, ⟨some 1, some 1.3⟩, ⟨some 2, some 5⟩]

/-! ## JSON values and the refiner — src/utils.py lines 118-191, src/video_cut.py lines 30-31 -/

/-- A JSON-like value, the shape of parsed engine responses. -/
inductive JValue where
  | jnull : JValue
  | jbool : Bool → JValue
  | jnum : ℚ → JValue
  | jstr : String → JValue
  | jarr : List JValue → JValue
  | jobj : List (String × JValue) → JValue

/-- The configuration error message raised at src/utils.py line 124
(punctuation simplified). -/
def credErrMsg : String :=
  "Please set gemini_api_key in config.json"

/-- Outcome of the refiner: a configuration error raised before the client
is constructed, an engine/parse error re-raised to the caller, or success
carrying both the returned document and the persisted artifact content. -/
inductive RefinerOutcome where
  | configError : String → RefinerOutcome
  | engineError : String → RefinerOutcome
  | ok : (returned : JValue) → (persisted : JValue) → RefinerOutcome

/-- Embedding of process_with_gemini (src/utils.py lines 118-191).
The credential check of lines 122-124 runs first: a missing key (dict get
returns None), an empty key (falsy string) or the placeholder raises a
ValueError before the client is constructed, hence before any network call —
modelled by returning configError without consuming the engine outcome.
Otherwise the engine is invoked (its outcome is the engineResult parameter);
a raised engine error or a parse failure is re-raised (lines 172-191).
On success the parsed value is both returned and persisted as the
stage-2 artifact (lines 179-186) with no reshaping of any kind. -/
def process_with_gemini (apiKey : Option String)
    (engineResult : Except String String)
    (parseJson : String → Except String JValue) : RefinerOutcome :=
  match apiKey with
  | none => .configError credErrMsg
  | some k =>
    if k = "" ∨ k = "YOUR_API_KEY_HERE" then .configError credErrMsg
    else
      match engineResult with
      | .error e => .engineError e
      | .ok text =>
        match parseJson text with
        | .error e => .engineError e
        | .ok refined => .ok refined refined

/-- Embedding of the list normalization at src/video_cut.py lines 30-31,
performed by the Stage-3 worker after reading the refined artifact:
a JSON array is replaced by its first element, or by an empty object if it
is empty; any non-array value is kept as is. -/
def stage3_normalize (refined : JValue) : JValue :=
  match refined with
  | .jarr [] => .jobj []
  | .jarr (x :: _) => x
  | v => v

/-- Concrete single refined object used to exercise the normalization. -/
def exFirst : JValue :=
  .jobj [("title", .jstr "T")]

/-- Concrete sequence-shaped engine response wrapping exFirst. -/
def exSeq : JValue :=
  .jarr [exFirst]

/-! ## Transcriber — src/utils.py lines 88-116 (transcribe_audio) -/

/-- A transcript segment as produced by the speech engine. -/
structure TSeg where
  start : ℚ
  stop : ℚ
  text : String

/-- The transcript document: a segments list and a language code. -/
structure TranscriptDoc where
  segments : List TSeg
  language : String

/-- State of the transcript-cache file sitting alongside the audio path
(audio path with .json extension, src/utils.py line 91):
missing; present but failing to load (json.load raises, or the language
key is absent so the dict access raises — both are swallowed by the
bare except at line 97); or present and loading as a document. -/
inductive CacheFile where
  | missing : CacheFile
  | invalid : CacheFile
  | valid : TranscriptDoc → CacheFile

/-- Whether the cache file exists on disk (the test at line 92). -/
def cacheFileExists : CacheFile → Bool
  | .missing => false
  | _ => true

/-- The per-segment hallucination filtering applied to a fresh engine result
at src/utils.py lines 107-108. -/
def applyFilterDoc (d : TranscriptDoc) : TranscriptDoc :=
  ⟨d.segments.map (fun s => ⟨s.start, s.stop, filter_hallucinations s.text⟩), d.language⟩

/-- Observable outcome of one transcribe_audio call: the returned document
and language, whether the speech engine was loaded and invoked, and the
cache file state after the call. -/
structure TranscribeOut where
  result : TranscriptDoc
  lang : String
  engineInvoked : Bool
  cacheAfter : CacheFile

/-- Embedding of transcribe_audio (src/utils.py lines 88-116). A valid cache
is returned directly with no engine invocation (lines 91-98); a missing
cache — and equally a cache that exists but fails to load, through the
swallowed exception of line 97 — falls through to loading the model and
transcribing (lines 100-113), filtering each segment text and writing the
cache. -/
def transcribe_audio (cache : CacheFile) (engineResult : TranscriptDoc) :
    TranscribeOut :=
  match cache with
  | .valid d => ⟨d, d.language, false, .valid d⟩
  | _ =>
    let r := applyFilterDoc engineResult
    ⟨r, r.language, true, .valid r⟩

/-! ## Stage-1 worker — src/transcribe.py lines 11-43 (process_file);
src/utils.py lines 261-290 (Stage1Wrapper.process) is line-for-line the
same control flow. -/

/-- Observable outcome of the Stage-1 worker on one video: the returned
message and whether the transient extracted wav file still exists. -/
structure Stage1Out where
  message : String
  wavExists : Bool

/-- Embedding of Stage-1 process_file (src/transcribe.py lines 11-43).
extractOk is the Boolean returned by extract_audio; when extraction fails the
worker returns before ever creating a transcript, and whether a half-written wav
file was left behind by the transcoder is outside the program, kept here as
the parameter wavIfExtractFails. When extraction succeeds the wav exists;
if transcribe_audio raises, the except branch at lines 31-32 returns
immediately — before the cleanup at lines 35-37 — so the wav is not removed.
Only the success path reaches the cleanup, and even there the deletion is
only attempted: os.remove runs under a bare try whose except is pass
(lines 36-37, identically src/utils.py lines 283-284), so a failing remove
(parameter removeOk false) is swallowed and the wav remains while the
Success string is still returned. -/
def stage1_process_file (name : String) (extractOk : Bool)
    (wavIfExtractFails : Bool)
    (transcribeResult : Except String TranscriptDoc)
    (removeOk : Bool) : Stage1Out :=
  if extractOk = false then
    ⟨"Failed extract: " ++ name, wavIfExtractFails⟩
  else
    match transcribeResult with
    | .error e => ⟨"Failed transcribe: " ++ (name ++ (" - " ++ e)), true⟩
    | .ok _ => ⟨"Success: Transcript saved to " ++ name, !removeOk⟩

/-! ## Stage-2 CLI worker — src/genai.py lines 16-53 (process_file) -/

/-- Result of a Python call: a value or a raised exception message. -/
inductive PyResult (α : Type) where
  | ok : α → PyResult α
  | exn : String → PyResult α

/-- Number of parameters of def process_with_gemini(transcript_json_path,
config) at src/utils.py line 118. -/
def PROCESS_WITH_GEMINI_PARAMS : Nat := 2

/-- Python call semantics for the invocation of process_with_gemini:
calling a function whose declared parameter count differs from the number
of supplied positional arguments raises a TypeError before the body runs. -/
def callProcessWithGemini {α : Type} (nargs : Nat) (run : PyResult α) :
    PyResult α :=
  if nargs = PROCESS_WITH_GEMINI_PARAMS then run
  else .exn ("TypeError: process_with_gemini takes " ++
    (toString PROCESS_WITH_GEMINI_PARAMS ++
      (" positional arguments but " ++ (toString nargs ++ " were given"))))

/-- The three return statements of src/genai.py process_file. -/
inductive Stage2Msg where
  | notFound : String → Stage2Msg
  | errorInStage2 : (name : String) → (err : String) → Stage2Msg
  | success : (refinedName : String) → (title : String) → Stage2Msg

/-- The exact strings returned at src/genai.py lines 26, 50 and 53. -/
def Stage2Msg.render : Stage2Msg → String
  | .notFound p => "Error: File " ++ (p ++ " not found.")
  | .errorInStage2 name e => "Error in Stage 2 for " ++ (name ++ (": " ++ e))
  | .success refinedName title =>
    "Success: Refined segments saved to " ++
      (refinedName ++ (" (Detected Title: " ++ (title ++ ")")))

/-- Embedding of Stage-2 process_file (src/genai.py lines 16-53).
If the file is missing, the not-found string is returned (line 26).
Otherwise everything from line 29 on runs inside one try: a failure of
open/json.load (the loadJson parameter) is caught at line 52; otherwise the
call at line 47 passes THREE positional arguments
(str(json_path), config, prompt_text) to utils.process_with_gemini, whose
2-parameter signature makes the call itself raise, also caught at line 52.
geminiCall is what the callee would have produced were the call well-formed. -/
def genai_process_file (name : String) (fileExists : Bool)
    (loadJson : PyResult JValue)
    (geminiCall : PyResult (JValue × String)) : Stage2Msg :=
  if fileExists = false then .notFound name
  else
    match loadJson with
    | .exn e => .errorInStage2 name e
    | .ok _ =>
      match callProcessWithGemini 3 geminiCall with
      | .exn e => .errorInStage2 name e
      | .ok (_, refinedName) => .success refinedName ""

/-! ## Stage-3 output naming — src/video_cut.py lines 33-40;
src/utils.py lines 329-336 (Stage3Wrapper.process) is identical. -/

/-- Python str.upper restricted to the character-wise uppercase map. -/
def pyUpper (s : String) : String :=
  String.mk (s.data.map Char.toUpper)

/-- Python str.rstrip: remove trailing whitespace. -/
def rstripPy (l : List Char) : List Char :=
  (l.reverse.dropWhile isPySpace).reverse

/-- The title sanitizer of src/video_cut.py lines 38-39: keep only
alphanumerics, spaces and underscores, strip trailing whitespace, then
replace spaces with underscores. -/
def safe_title (t : String) : String :=
  let kept := t.data.filter (fun c => c.isAlphanum || c = ' ' || c = '_')
  String.mk ((rstripPy kept).map (fun c => if c = ' ' then '_' else c))

/-- The two metadata fields of the refined document read by Stage 3, each
through dict get with a default (src/video_cut.py lines 34 and 38). -/
structure Stage3Doc where
  title : Option String
  detected_language : Option String

/-- The language directory component: get("detected_language", "HE").upper()
at src/video_cut.py line 34. -/
def stage3_lang (d : Stage3Doc) : String :=
  pyUpper (d.detected_language.getD "HE")

/-- The sanitized title: get("title", "video") fed to the sanitizer
(src/video_cut.py line 38). -/
def stage3_safe_title (d : Stage3Doc) : String :=
  safe_title (d.title.getD "video")

/-- The output subdirectory output/LANG (src/video_cut.py lines 33-35). -/
def stage3_lang_dir (d : Stage3Doc) : String :=
  "output/" ++ stage3_lang d

/-! ## Helper lemmas -/

/-- A string whose characters are all garbage filters to empty. -/
theorem filter_all_garbage (t : String) (h : t.data.all isGarbageChar = true) :
    filter_hallucinations t = "" := by
  unfold filter_hallucinations
  by_cases he : t.data = []
  · simp [he]
  · simp [he, h]

/-- A string containing a non-garbage character is returned unchanged. -/
theorem filter_keeps (t : String) (c : Char) (hc : c ∈ t.data)
    (hg : isGarbageChar c = false) : filter_hallucinations t = t := by
  have hall : t.data.all isGarbageChar = false := by
    rw [List.all_eq_false]
    exact ⟨c, hc, by simp [hg]⟩
  have he : t.data ≠ [] := by
    intro h0
    rw [h0] at hc
    exact absurd hc (List.not_mem_nil c)
  simp [filter_hallucinations, he, hall]

/-- The per-index clip constructor agrees with the survival test. -/
theorem clipOf_survives (i : Nat) (s : Segment) :
    clipOf i s =
      if survives s then some ⟨s.start.getD 0, s.stop.getD 0, decide (0 < i)⟩
      else none := by
  obtain ⟨st, en⟩ := s
  cases st with
  | none => rfl
  | some a =>
    cases en with
    | none => rfl
    | some b =>
      by_cases hlt : b - a < 0.5
      · have h1 : survives ⟨some a, some b⟩ = false := by simp [survives, hlt]
        simp [clipOf, hlt, h1]
      · have h1 : survives ⟨some a, some b⟩ = true := by simp [survives, hlt]
        simp [clipOf, hlt, h1]

/-- Unfolding equation for one loop step, phrased by the survival test. -/
theorem buildClipsAux_cons (i : Nat) (s : Segment) (rest : List Segment) :
    buildClipsAux i (s :: rest) =
      if survives s = true
      then ⟨s.start.getD 0, s.stop.getD 0, decide (0 < i)⟩ ::
        buildClipsAux (i + 1) rest
      else buildClipsAux (i + 1) rest := by
  rw [buildClipsAux, clipOf_survives]
  by_cases hs : survives s = true
  · rw [if_pos hs, if_pos hs]
  · rw [if_neg hs, if_neg hs]

/-- The loop keeps exactly the surviving segments, preserving bounds and order. -/
theorem buildClipsAux_bounds (segs : List Segment) : ∀ i : Nat,
    (buildClipsAux i segs).map clipBounds =
      (segs.filter survives).map segBounds := by
  induction segs with
  | nil => intro i; rfl
  | cons s rest ih =>
    intro i
    rw [buildClipsAux_cons]
    by_cases hs : survives s = true
    · rw [if_pos hs, List.filter_cons_of_pos hs]
      simp [clipBounds, segBounds, ih (i + 1)]
    · rw [if_neg hs, List.filter_cons_of_neg (by simpa using hs)]
      exact ih (i + 1)

/-- Every clip produced by the loop from a positive running index is faded. -/
theorem buildClipsAux_fade (segs : List Segment) : ∀ i : Nat, 0 < i →
    ∀ c ∈ buildClipsAux i segs, c.fadeIn = true := by
  induction segs with
  | nil => intro i _ c hc; exact absurd hc (List.not_mem_nil c)
  | cons s rest ih =>
    intro i hi c hc
    rw [buildClipsAux_cons] at hc
    by_cases hs : survives s = true
    · rw [if_pos hs] at hc
      rcases List.mem_cons.mp hc with hc0 | hc1
      · rw [hc0]
        simpa using hi
      · exact ih (i + 1) (by omega) c hc1
    · rw [if_neg hs] at hc
      exact ih (i + 1) (by omega) c hc

/-- Two string concatenations with distinct leading characters are distinct. -/
theorem append_ne_of_head (p q r s : String) (a b : Char)
    (hp : p.data.head? = some a) (hq : q.data.head? = some b) (hab : a ≠ b) :
    p ++ r ≠ q ++ s := by
  intro h
  have hd : p.data ++ r.data = q.data ++ s.data := by
    have h2 := congrArg String.data h
    simpa [String.data_append] using h2
  have h1 : (p.data ++ r.data).head? = some a := by
    cases hpd : p.data with
    | nil => simp [hpd] at hp
    | cons x l => rw [hpd] at hp; simpa using hp
  have h2 : (q.data ++ s.data).head? = some b := by
    cases hqd : q.data with
    | nil => simp [hqd] at hq
    | cons x l => rw [hqd] at hq; simpa using hq
  rw [hd, h2] at h1
  exact hab (by simpa using h1.symm)

/-! ## Claims C9, C7, C8, C2 -/

/-- C9: the hallucination filter maps text made solely of whitespace and the
designated garbage glyphs to the empty string, returns any text containing
some other character unchanged, is idempotent, and maps empty text to empty
text (src/utils.py lines 37-44). -/
theorem C9_filter_behavior :
    (∀ t : String, t.data.all isGarbageChar = true →
      filter_hallucinations t = "") ∧
    (∀ t : String, (∃ c ∈ t.data, isGarbageChar c = false) →
      filter_hallucinations t = t) ∧
    (∀ t : String,
      filter_hallucinations (filter_hallucinations t) =
        filter_hallucinations t) ∧
    filter_hallucinations "" = "" := by
  refine ⟨filter_all_garbage, ?_, ?_, rfl⟩
  · rintro t ⟨c, hc, hg⟩
    exact filter_keeps t c hc hg
  · intro t
    unfold filter_hallucinations
    split
    · rfl
    · split
      · rfl
      · rfl

/-- C9 witness: the theorem applied at concrete inputs, among them a
no-break-space string, since the regex whitespace class is Unicode-wide. -/
theorem C9_filter_witness :
    filter_hallucinations " ḍὁ " = "" ∧
    filter_hallucinations "\u00A0\u2028" = "" ∧
    filter_hallucinations "abc" = "abc" :=
  ⟨C9_filter_behavior.1 " ḍὁ " (by decide),
   C9_filter_behavior.1 "\u00A0\u2028" (by decide),
   C9_filter_behavior.2.1 "abc" ⟨'a', by decide, by decide⟩⟩

/-- C7: the segment cutter retains exactly the segments with both bounds
present and duration at least 0.5, in order and with their bounds; on the
sequence [(0,1), (1,1.3), (2,5)] the middle segment is dropped and 2 clips
are retained (src/utils.py lines 208-222). -/
theorem C7_drop_rule :
    (∀ segs : List Segment,
      (buildClips segs).map clipBounds =
        (segs.filter survives).map segBounds) ∧
    survives ⟨some 1, some 1.3⟩ = false ∧
    (buildClips exampleSegs).map clipBounds = [(0, 1), (2, 5)] ∧
    (buildClips exampleSegs).length = 2 := by
  refine ⟨fun segs => buildClipsAux_bounds segs 0, ?_, ?_, ?_⟩
  · norm_num [survives]
  · norm_num [exampleSegs, buildClips, buildClipsAux, clipOf, clipBounds]
  · norm_num [exampleSegs, buildClips, buildClipsAux, clipOf]

/-- C8: the segment cutter returns the failure signal (and produces no
output) whenever the input is empty or every segment is dropped for a
missing bound or sub-0.5 duration (src/utils.py lines 197-199 and 224-226). -/
theorem C8_failure_on_no_survivors (segs : List Segment)
    (h : segs = [] ∨ ∀ s ∈ segs, survives s = false) :
    trim_video_from_segments segs = none := by
  rcases h with h | h
  · rw [h]; rfl
  · unfold trim_video_from_segments
    by_cases he : segs = []
    · simp [he]
    · have hfilter : segs.filter survives = [] := by
        rw [List.filter_eq_nil_iff]
        intro s hs
        simp [h s hs]
      have hmap : (buildClips segs).map clipBounds = [] := by
        rw [buildClips, buildClipsAux_bounds segs 0, hfilter]
        rfl
      have hclips : buildClips segs = [] := by
        exact List.map_eq_nil_iff.mp hmap
      simp [he, hclips]

/-- C8 witness: the theorem applied to a one-element list whose only segment
is below the duration floor. -/
theorem C8_failure_witness :
    trim_video_from_segments [⟨some 0, some 0.25⟩] = none :=
  C8_failure_on_no_survivors [⟨some 0, some 0.25⟩]
    (Or.inr (by intro s hs; rw [List.mem_singleton] at hs; rw [hs]; norm_num [survives]))

/-- C2 counterexample: with input [(0, 0.3), (1, 5)] the first segment is
dropped for short duration, and the single surviving clip — the first
surviving one — carries the 0.5s cross-fade-in, because the code keys the
fade on the original enumeration index (src/utils.py line 219), not on the
position among survivors; the claim predicts no fade here. -/
theorem C2_counterexample :
    survives ⟨some 0, some 0.3⟩ = false ∧
    trim_video_from_segments [⟨some 0, some 0.3⟩, ⟨some 1, some 5⟩] =
      some [⟨1, 5, true⟩] := by
  constructor
  · norm_num [survives]
  · have hb : buildClips [⟨some 0, some 0.3⟩, ⟨some 1, some 5⟩] =
        [⟨1, 5, true⟩] := by
      norm_num [buildClips, buildClipsAux, clipOf]
    simp [trim_video_from_segments, hb]

/-- C2 amended: the cross-fade-in follows the original input index — every
clip produced from input index above zero is faded, so when the first input
segment survives it alone is unfaded, and when the first input segment is
dropped every surviving clip, including the first surviving one, is faded
(src/utils.py lines 208-220). -/
theorem C2_fade_follows_input_index :
    (∀ (s0 : Segment) (rest : List Segment), survives s0 = false →
      ∀ c ∈ buildClips (s0 :: rest), c.fadeIn = true) ∧
    (∀ (s0 : Segment) (rest : List Segment) (c : Clip) (cs : List Clip),
      survives s0 = true → buildClips (s0 :: rest) = c :: cs →
      c.fadeIn = false ∧ ∀ c2 ∈ cs, c2.fadeIn = true) := by
  constructor
  · intro s0 rest h c hc
    rw [buildClips, buildClipsAux_cons, if_neg (by simp [h])] at hc
    exact buildClipsAux_fade rest (0 + 1) (by omega) c hc
  · intro s0 rest c cs hs hbuild
    rw [buildClips, buildClipsAux_cons, if_pos hs] at hbuild
    rw [List.cons_eq_cons] at hbuild
    obtain ⟨hc0, hcs⟩ := hbuild
    constructor
    · rw [← hc0]
      rfl
    · intro c2 hc2
      rw [← hcs] at hc2
      exact buildClipsAux_fade rest (0 + 1) (by omega) c2 hc2

/-- C2 witness: the amended theorem applied to the counterexample input —
the surviving clip from input index 1 is faded although it is the first
survivor. -/
theorem C2_fade_witness : Clip.fadeIn ⟨1, 5, true⟩ = true :=
  C2_fade_follows_input_index.1 ⟨some 0, some 0.3⟩ [⟨some 1, some 5⟩]
    (by norm_num [survives]) ⟨1, 5, true⟩
    (by norm_num [buildClips, buildClipsAux, clipOf])

/-! ## Claims C3 and C6 — the refiner -/

/-- With a credential that passes the check, the refiner outcome is decided
by the engine call and the parse alone. -/
theorem process_with_gemini_pass (k : String) (e : Except String String)
    (p : String → Except String JValue)
    (hif : ¬(k = "" ∨ k = "YOUR_API_KEY_HERE")) :
    process_with_gemini (some k) e p =
      match e with
      | .error msg => RefinerOutcome.engineError msg
      | .ok text =>
        match p text with
        | .error msg => RefinerOutcome.engineError msg
        | .ok refined => RefinerOutcome.ok refined refined := by
  cases e with
  | error msg =>
    show (if k = "" ∨ k = "YOUR_API_KEY_HERE" then _ else _) = _
    rw [if_neg hif]
  | ok text =>
    show (if k = "" ∨ k = "YOUR_API_KEY_HERE" then _ else _) = _
    rw [if_neg hif]

/-- C3 counterexample: when the parsed engine response is the concrete
sequence exSeq, the refiner (process_with_gemini, src/utils.py lines
172-186) persists the sequence itself as the stage-2 artifact, not its
first element exFirst; no first-element normalization happens there. -/
theorem C3_counterexample :
    process_with_gemini (some "k") (Except.ok "resp")
        (fun _ => Except.ok exSeq) = RefinerOutcome.ok exSeq exSeq ∧
      exSeq ≠ exFirst := by
  constructor
  · rfl
  · intro h
    simp [exSeq, exFirst] at h

/-- C3 amended: the refiner persists the parsed response exactly as parsed;
the take-the-first-element normalization (sequence to first element, empty
sequence to empty object, anything else unchanged) is performed by the
Stage-3 worker when it reads the refined artifact
(src/video_cut.py lines 30-31). -/
theorem C3_normalization_in_stage3 :
    (∀ (k t : String) (parse : String → Except String JValue) (v : JValue),
      k ≠ "" → k ≠ "YOUR_API_KEY_HERE" → parse t = Except.ok v →
      process_with_gemini (some k) (Except.ok t) parse =
        RefinerOutcome.ok v v) ∧
    (∀ (x : JValue) (xs : List JValue),
      stage3_normalize (JValue.jarr (x :: xs)) = x) ∧
    stage3_normalize (JValue.jarr []) = JValue.jobj [] ∧
    (∀ s : String, stage3_normalize (JValue.jstr s) = JValue.jstr s) ∧
    (∀ fields : List (String × JValue),
      stage3_normalize (JValue.jobj fields) = JValue.jobj fields) := by
  refine ⟨?_, fun x xs => rfl, rfl, fun s => rfl, fun fields => rfl⟩
  intro k t parse v hk1 hk2 hparse
  rw [process_with_gemini_pass k (Except.ok t) parse (by simp [hk1, hk2])]
  show (match parse t with
    | Except.error msg => RefinerOutcome.engineError msg
    | Except.ok refined => RefinerOutcome.ok refined refined) =
    RefinerOutcome.ok v v
  rw [hparse]

/-- C3 witness: the amended refiner clause applied at a concrete credential
and a parse producing the empty object. -/
theorem C3_normalization_witness :
    process_with_gemini (some "key") (Except.ok "x")
        (fun _ => Except.ok (JValue.jobj [])) =
      RefinerOutcome.ok (JValue.jobj []) (JValue.jobj []) :=
  C3_normalization_in_stage3.1 "key" "x" (fun _ => Except.ok (JValue.jobj []))
    (JValue.jobj []) (by decide) (by decide) rfl

/-- C6: a missing, empty or placeholder credential makes the refiner return
the configuration error without consuming the engine outcome — before any
client construction or network call — while any other credential value
passes the check, so the outcome is never the configuration error
(src/utils.py lines 122-127). -/
theorem C6_credential_check :
    (∀ (e : Except String String) (p : String → Except String JValue),
      process_with_gemini none e p = RefinerOutcome.configError credErrMsg) ∧
    (∀ (e : Except String String) (p : String → Except String JValue),
      process_with_gemini (some "") e p =
        RefinerOutcome.configError credErrMsg) ∧
    (∀ (e : Except String String) (p : String → Except String JValue),
      process_with_gemini (some "YOUR_API_KEY_HERE") e p =
        RefinerOutcome.configError credErrMsg) ∧
    (∀ (k : String) (e : Except String String)
        (p : String → Except String JValue) (m : String),
      k ≠ "" → k ≠ "YOUR_API_KEY_HERE" →
      process_with_gemini (some k) e p ≠ RefinerOutcome.configError m) := by
  refine ⟨fun e p => rfl, fun e p => rfl, fun e p => rfl, ?_⟩
  intro k e p m hk1 hk2 h
  rw [process_with_gemini_pass k e p (by simp [hk1, hk2])] at h
  cases e with
  | error msg => exact RefinerOutcome.noConfusion h
  | ok text =>
    have h2 : (match p text with
      | Except.error msg => RefinerOutcome.engineError msg
      | Except.ok refined => RefinerOutcome.ok refined refined) =
        RefinerOutcome.configError m := h
    cases hp : p text with
    | error msg => rw [hp] at h2; exact RefinerOutcome.noConfusion h2
    | ok v => rw [hp] at h2; exact RefinerOutcome.noConfusion h2

/-- C6 witness: the pass-the-check clause applied at a concrete non-empty,
non-placeholder credential. -/
theorem C6_credential_witness :
    process_with_gemini (some "abc") (Except.error "boom")
        (fun _ => Except.error "parse") ≠
      RefinerOutcome.configError credErrMsg :=
  C6_credential_check.2.2.2 "abc" (Except.error "boom")
    (fun _ => Except.error "parse") credErrMsg (by decide) (by decide)

/-! ## Claim C4 — the transcriber cache -/

/-- C4 counterexample: a cache file that exists but fails to load (the bare
except of src/utils.py line 97) does NOT make the transcriber return the
cache contents — the call falls through and invokes the speech engine, so
the existence of the cache file alone does not prevent engine invocation. -/
theorem C4_counterexample :
    cacheFileExists CacheFile.invalid = true ∧
    (transcribe_audio CacheFile.invalid ⟨[], "en"⟩).engineInvoked = true := by
  exact ⟨rfl, rfl⟩

/-- C4 amended: when the cache file exists AND loads as a document with a
language key, the transcriber returns the cached contents with no engine
invocation, and a second call on the resulting cache state returns the
identical result, again without invoking the engine; a cache file that
exists but fails to load falls through to engine transcription
(src/utils.py lines 88-116). -/
theorem C4_cache_hit_behavior (d : TranscriptDoc) (e1 e2 : TranscriptDoc) :
    (transcribe_audio (CacheFile.valid d) e1).result = d ∧
    (transcribe_audio (CacheFile.valid d) e1).engineInvoked = false ∧
    (transcribe_audio (transcribe_audio (CacheFile.valid d) e1).cacheAfter
        e2).result = (transcribe_audio (CacheFile.valid d) e1).result ∧
    (transcribe_audio (transcribe_audio (CacheFile.valid d) e1).cacheAfter
        e2).engineInvoked = false ∧
    (transcribe_audio CacheFile.invalid e1).engineInvoked = true := by
  exact ⟨rfl, rfl, rfl, rfl, rfl⟩

/-! ## Claim C5 — the stage-1 wav cleanup -/

/-- C5 counterexample: when audio extraction succeeds and transcription then
raises, the Stage-1 worker returns its failure string from inside the except
branch (src/transcribe.py lines 31-32), skipping the cleanup of lines 35-37
even though os.remove itself would have succeeded, so the transient wav file
still exists after the worker returns — against the claim that it no longer
exists on success or failure. -/
theorem C5_counterexample :
    (stage1_process_file "v.mp4" true false
        (Except.error "model error") true).wavExists = true ∧
    (stage1_process_file "v.mp4" true false
        (Except.error "model error") true).message =
      "Failed transcribe: " ++ ("v.mp4" ++ (" - " ++ "model error")) := by
  exact ⟨rfl, rfl⟩

/-- C5 amended: on the success path the worker attempts the deletion, so the
wav is gone exactly when the attempted os.remove succeeds — a failing remove
is silently swallowed (try/except-pass, src/transcribe.py lines 36-37) and
leaves the wav behind while the Success string is still returned; when
transcription raises, the failure return precedes the cleanup and the wav
file remains whether or not a remove would have succeeded
(src/transcribe.py lines 11-43; src/utils.py lines 261-290 behave
identically). -/
theorem C5_wav_cleanup (name : String) (w : Bool) (d : TranscriptDoc)
    (e : String) (removeOk : Bool) :
    (stage1_process_file name true w (Except.ok d) removeOk).wavExists =
      !removeOk ∧
    (stage1_process_file name true w (Except.ok d) true).wavExists = false ∧
    (stage1_process_file name true w (Except.ok d) false).message =
      "Success: Transcript saved to " ++ name ∧
    (stage1_process_file name true w (Except.error e) removeOk).wavExists =
      true := by
  exact ⟨rfl, rfl, rfl, rfl⟩

/-! ## Claim C1 — the stage-2 CLI worker arity bug -/

/-- C1: for every transcript path that exists, the Stage-2 CLI worker of
src/genai.py returns the Stage-2 error message and never the success
message, whatever the JSON load and the would-be engine call produce,
because the three-argument call at line 47 to the two-parameter
utils.process_with_gemini raises before the success return is reachable;
the rendered message begins with the Stage-2 error text and is never the
success string. -/
theorem C1_stage2_worker_always_fails (name : String)
    (loadJson : PyResult JValue) (geminiCall : PyResult (JValue × String)) :
    (∃ e, genai_process_file name true loadJson geminiCall =
      Stage2Msg.errorInStage2 name e) ∧
    (∀ rn t, genai_process_file name true loadJson geminiCall ≠
      Stage2Msg.success rn t) ∧
    (∃ rest, (Stage2Msg.render
        (genai_process_file name true loadJson geminiCall)).data =
      "Error in Stage 2".data ++ rest) ∧
    (∀ s, Stage2Msg.render (genai_process_file name true loadJson geminiCall)
      ≠ "Success: Refined segments saved to " ++ s) := by
  have hmain : ∃ e, genai_process_file name true loadJson geminiCall =
      Stage2Msg.errorInStage2 name e := by
    cases loadJson with
    | exn e => exact ⟨e, rfl⟩
    | ok v => exact ⟨_, rfl⟩
  obtain ⟨e, he⟩ := hmain
  refine ⟨⟨e, he⟩, ?_, ?_, ?_⟩
  · intro rn t h
    rw [he] at h
    exact Stage2Msg.noConfusion h
  · rw [he]
    refine ⟨" for ".data ++ (name.data ++ (": ".data ++ e.data)), ?_⟩
    show ("Error in Stage 2 for " ++ (name ++ (": " ++ e))).data = _
    rw [String.data_append, String.data_append, String.data_append]
    rw [show "Error in Stage 2 for ".data =
      "Error in Stage 2".data ++ " for ".data from by decide]
    simp [List.append_assoc]
  · intro s
    rw [he]
    show "Error in Stage 2 for " ++ (name ++ (": " ++ e)) ≠ _
    exact append_ne_of_head _ _ _ _ 'E' 'S' (by decide) (by decide) (by decide)

/-! ## Claim C10 — stage-3 defaults and uppercasing -/

/-- C10: when the refined document lacks a title the sanitized title is
"video"; when it lacks a detected language the language directory component
is "HE"; and for any present language value the directory component is its
uppercased form, making the output directory output/LANG
(src/video_cut.py lines 33-40, identically src/utils.py lines 329-336). -/
theorem C10_stage3_defaults :
    (∀ lang : Option String, stage3_safe_title ⟨none, lang⟩ = "video") ∧
    (∀ t : Option String, stage3_lang ⟨t, none⟩ = "HE") ∧
    (∀ (t : Option String) (lang : String),
      stage3_lang ⟨t, some lang⟩ = pyUpper lang) ∧
    (∀ t : Option String, stage3_lang_dir ⟨t, none⟩ = "output/" ++ "HE") ∧
    (∀ (t : Option String) (lang : String),
      stage3_lang_dir ⟨t, some lang⟩ = "output/" ++ pyUpper lang) := by
  refine ⟨?_, ?_, fun t lang => rfl, ?_, fun t lang => rfl⟩
  · intro lang
    show safe_title "video" = "video"
    decide
  · intro t
    show pyUpper "HE" = "HE"
    decide
  · intro t
    show "output/" ++ pyUpper "HE" = "output/" ++ "HE"
    rw [show pyUpper "HE" = "HE" from by decide]
